import Mathlib

set_option linter.unusedVariables false

/-!
Shallow embedding of the data-staging transfer engine of
`src/pilot/copytool/xrdcp.py` (pilot2), together with proofs about it.

Python strings are modelled as `String`/`List Char`; the external process
executor `pilot.util.container.execute` is an oracle parameter mapping a
call index and a command line to an exit code plus captured output; the
shared error resolver `resolve_common_transfer_errors` (an external
collaborator living outside the verified sources) is an opaque function
parameter.  Exceptions are modelled with `Except`; Python's in-place
mutation of `FileSpec` objects is modelled by returning the updated list.
-/

namespace Xrdcp

/-- Character class of the regex `[a-zA-Z0-9]` used for the checksum group. -/
def isAlnumCh (c : Char) : Bool :=
  (48 ≤ c.toNat && c.toNat ≤ 57) || (65 ≤ c.toNat && c.toNat ≤ 90) ||
    (97 ≤ c.toNat && c.toNat ≤ 122)

/-- Character class of the regex `[0-9]` used for the filesize group. -/
def isDigitCh (c : Char) : Bool := 48 ≤ c.toNat && c.toNat ≤ 57

/-- Python's `\s` whitespace class (ASCII part); `\S` is its negation. -/
def isSpaceCh (c : Char) : Bool :=
  c.toNat = 32 || c.toNat = 9 || c.toNat = 10 || c.toNat = 13 ||
    c.toNat = 11 || c.toNat = 12

/-- Hexadecimal digit, used to state the round-trip claim about checksum values. -/
def isHexCh (c : Char) : Bool :=
  isDigitCh c || (97 ≤ c.toNat && c.toNat ≤ 102) || (65 ≤ c.toNat && c.toNat ≤ 70)

/-- Plain list prefix test (Python regex literal matching helper). -/
def isPfx : List Char → List Char → Bool
  | [], _ => true
  | _ :: _, [] => false
  | a :: as, b :: bs => a == b && isPfx as bs

/-- Python's substring containment `pat in s`. -/
def isSubstr (pat : List Char) : List Char → Bool
  | [] => isPfx pat []
  | c :: rest => isPfx pat (c :: rest) || isSubstr pat rest

/-- Value of a decimal digit string, as computed by Python's `int(...)`
on a string of `[0-9]` characters. -/
def digitsToNat (l : List Char) : Nat :=
  l.foldl (fun a c => a * 10 + (c.toNat - 48)) 0

/-- Python's `str.zfill(8)` on a checksum string (no sign handling is
needed: the matched group is alphanumeric). -/
def zfill8 (l : List Char) : List Char :=
  if l.length < 8 then List.replicate (8 - l.length) '0' ++ l else l

/-!
The single regular expression of `get_file_info_from_output`:

  `(?P<type>md5|adler32):\ (?P<checksum>[a-zA-Z0-9]+)\ \S+\ (?P<filesize>[0-9]+)`

applied with `re.search` (leftmost match).  For this pattern greedy
matching never needs to backtrack: each `+`-group is a maximal run of its
character class, because the literal that follows each group (a space) can
never be a member of the group's class.  The matcher below implements
exactly that: at each start position try the two type alternatives in
order, then the fixed literals and maximal runs.
-/

/-- Step 4 of the pattern: after the literal space following the ignored
token, a maximal nonempty `[0-9]+` run closes the match. -/
def matchSize (ty cks : List Char) (r5 : List Char) :
    Option (List Char × List Char × List Char) :=
  match r5 with
  | ' ' :: r6 =>
    let fs := r6.takeWhile isDigitCh
    if fs.isEmpty then none else some (ty, cks, fs)
  | _ => none

/-- Step 3: after the literal space following the checksum, a maximal
nonempty `\S+` run, then the size. -/
def matchTok (ty cks : List Char) (r3 : List Char) :
    Option (List Char × List Char × List Char) :=
  match r3 with
  | ' ' :: r4 =>
    let tok := r4.takeWhile (fun c => !(isSpaceCh c))
    if tok.isEmpty then none
    else matchSize ty cks (r4.dropWhile (fun c => !(isSpaceCh c)))
  | _ => none

/-- Step 2: a maximal nonempty `[a-zA-Z0-9]+` checksum run, then the rest. -/
def matchChecksum (ty : List Char) (r2 : List Char) :
    Option (List Char × List Char × List Char) :=
  let cks := r2.takeWhile isAlnumCh
  if cks.isEmpty then none
  else matchTok ty cks (r2.dropWhile isAlnumCh)

/-- Step 1: the literal `": "` after the type alternative; groups of a
successful match are (type, checksum, filesize). -/
def matchAfterType (ty : List Char) (rest : List Char) :
    Option (List Char × List Char × List Char) :=
  match rest with
  | ':' :: ' ' :: r2 => matchChecksum ty r2
  | _ => none

/-- Attempt the pattern anchored at the head of `s`; the alternation tries
`md5` first, then `adler32`, as Python's regex engine does. -/
def tryMatchAt (s : List Char) : Option (List Char × List Char × List Char) :=
  if isPfx ("md5").data s then matchAfterType ("md5").data (s.drop 3)
  else if isPfx ("adler32").data s then matchAfterType ("adler32").data (s.drop 7)
  else none

/-- `re.search`: scan start positions left to right. -/
def reSearch : List Char → Option (List Char × List Char × List Char)
  | [] => none
  | c :: rest =>
    match tryMatchAt (c :: rest) with
    | some r => some r
    | none => reSearch rest

/-- Result of `get_file_info_from_output`.  The source function returns a
Python tuple of TWO values (`return None, None`) on its two early-exit
branches and a tuple of THREE values on the main path, so the result type
has one constructor for each arity. -/
inductive ParseOut where
  | two (fsize : Option Nat) (cks : Option (List Char))
  | three (fsize : Option Nat) (cks : Option (List Char)) (ty : Option (List Char))
deriving Repr, DecidableEq

/-- Embedding of `get_file_info_from_output` (src/pilot/copytool/xrdcp.py,
lines 218-250) over a list of characters.  The `int(filesize)` conversion
cannot fail because the matched group consists of `[0-9]` characters only,
so the `ValueError` handler is never entered and the conversion is modelled
directly by `digitsToNat`. -/
def get_file_info_core (output : List Char) : ParseOut :=
  if output.isEmpty then .two none none
  else if !(isSubstr ("xrootd").data output || isSubstr ("XRootD").data output ||
            isSubstr ("adler32").data output) then .two none none
  else
    match reSearch output with
    | some (ty, cks, fs) => .three (some (digitsToNat fs)) (some (zfill8 cks)) (some ty)
    | none => .three none none none

/-- String-level wrapper of the output parser. -/
def get_file_info_from_output (output : String) : ParseOut :=
  get_file_info_core output.data

/-- Error codes referenced by xrdcp.py.  Modelled from the spec: the
numeric constants live in `pilot.common.exception.ErrorCodes`, which is not
among the verified sources; only their identities matter to the engine
(a stage-in fallback, a stage-out fallback, and the two checksum-mismatch
codes), so they are fixed distinct naturals here. -/
def STAGEINFAILED : Nat := 1099

/-- Modelled from the spec: stage-out fallback error code (see `STAGEINFAILED`). -/
def STAGEOUTFAILED : Nat := 1137

/-- Modelled from the spec: stage-in checksum-mismatch code (see `STAGEINFAILED`). -/
def GETADMISMATCH : Nat := 1097

/-- Modelled from the spec: stage-out checksum-mismatch code (see `STAGEINFAILED`). -/
def PUTADMISMATCH : Nat := 1141

/-- The TypedError carried by a `PilotException`: numeric code, state
label and diagnostic message.  Modelled from the spec: the exception class
itself is defined outside the verified sources; its accessors used by
xrdcp.py are `get_error_code()` (the code), `get_detail()` (the
diagnostic) and `get(key)` (field lookup). -/
structure TypedError where
  message : String
  code : Nat
  state : String
deriving Repr, DecidableEq

/-- A Python exception as raised by the engine: either a `PilotException`
carrying a TypedError, or a plain `ValueError` (such as the one raised by
unpacking a 2-tuple into three variables). -/
inductive PyErr where
  | pilot (e : TypedError)
  | valueError (msg : String)
deriving Repr, DecidableEq

/-- Result of one `execute(cmd)` call: exit code, stdout, stderr. -/
structure ExecResult where
  rcode : Int
  stdout : String
  stderr : String
deriving Repr, DecidableEq

/-- Oracle for `pilot.util.container.execute`: maps the index of the call
(subprocess invocations are sequential) and the command line to its result. -/
def Exec : Type := Nat → String → ExecResult

/-- Structured result of `resolve_common_transfer_errors` (an external
collaborator from `pilot.copytool.common`): the dictionary with keys
`error`, `rcode`, `state` consumed by `_stagefile`.  The resolver itself
is kept opaque (a function parameter) since its internals are outside the
verified sources. -/
structure ResolvedError where
  error : String
  rcode : Nat
  state : String
deriving Repr, DecidableEq

/-- Oracle type for `resolve_common_transfer_errors(output, is_stagein)`. -/
def Resolver : Type := String → Bool → ResolvedError

/-- The mutable trace report accumulator (`trace_report`), restricted to
the fields xrdcp.py writes.  `update` calls are record updates; `send`
snapshots the record into the event log. -/
structure TraceReport where
  localSite : Option String := none
  remoteSite : Option String := none
  filesize : Option Nat := none
  filename : Option String := none
  guid : Option String := none
  scope : Option String := none
  dataset : Option String := none
  url : Option String := none
  clientState : Option String := none
  stateReason : Option String := none
  catStart : Option Nat := none
  timeEnd : Option Nat := none
deriving Repr, DecidableEq

instance : DecidableEq (Except PyErr Unit) := fun a b =>
  match a, b with
  | .ok (), .ok () => isTrue rfl
  | .error x, .error y =>
    if h : x = y then isTrue (by rw [h]) else isFalse (by intro hc; cases hc; exact h rfl)
  | .ok (), .error _ => isFalse (by intro hc; cases hc)
  | .error _, .ok () => isFalse (by intro hc; cases hc)

/-- Sequential side-effect state threaded through a batch call: the
subprocess call counter, a logical clock for `time()`, the trace
accumulator, the log of flushed trace events, the log of executed command
lines, and an instrumentation log of per-file stage outcomes (the
exceptions observed by the driver's `try` blocks). -/
structure DriverState where
  callIdx : Nat := 0
  clock : Nat := 0
  trace : TraceReport := {}
  events : List TraceReport := []
  cmds : List String := []
  stageResults : List (String × Except PyErr Unit) := []
deriving Repr, DecidableEq

/-- One `execute(cmd)` call: consults the oracle at the current call index
and records the command line. -/
def executeCmd (exec : Exec) (cmd : String) (st : DriverState) :
    ExecResult × DriverState :=
  (exec st.callIdx cmd, { st with callIdx := st.callIdx + 1, cmds := st.cmds ++ [cmd] })

/-- `time()`: a logical clock (claims never inspect the value, only that
timestamps are recorded). -/
def pyTime (st : DriverState) : Nat × DriverState :=
  (st.clock, { st with clock := st.clock + 1 })

/-- `trace_report.send()`: flush the current accumulator snapshot. -/
def sendTrace (st : DriverState) : DriverState :=
  { st with events := st.events ++ [st.trace] }

/-- Python truthiness of an optional string (`None` and `""` are falsy). -/
def truthyS : Option String → Bool
  | none => false
  | some s => !s.isEmpty

/-- Prepend the optional setup prefix: `"source %s; %s" % (setup, cmd)`
when `setup` is truthy, else the bare command. -/
def withSetup (setup : Option String) (cmd : String) : String :=
  if truthyS setup then "source " ++ setup.getD ("") ++ "; " ++ cmd else cmd

def copy_command : String := "xrdcp"

/-- The version-probe command line of `_resolve_checksum_option`. -/
def versionCmd (setup : Option String) : String :=
  withSetup setup (copy_command ++ " --version")

/-- The help-probe command line of `_resolve_checksum_option`. -/
def helpCmd (setup : Option String) : String :=
  withSetup setup (copy_command ++ " -h")

/-- Embedding of `_resolve_checksum_option` (src/pilot/copytool/xrdcp.py,
lines 49-88).  Two probes are executed; the version probe's exit code is
only logged, the help probe's exit code and output decide the returned
command-line fragment.  `checksum_type` is the hard-coded `'adler32'`, so
the `-md5` branch (guarded by `checksum_type == 'md5'`) is never taken. -/
def _resolve_checksum_option (exec : Exec) (setup : Option String)
    (st : DriverState) : String × DriverState :=
  let p1 := executeCmd exec (versionCmd setup) st
  let p2 := executeCmd exec (helpCmd setup) p1.2
  let r2 := p2.1
  let st2 := p2.2
  let output := r2.stdout ++ r2.stderr
  let checksum_type := "adler32"
  let coption :=
    if r2.rcode ≠ 0 then ""
    else if isSubstr ("--cksum").data output.data then "--cksum " ++ checksum_type ++ ":print"
    else if isSubstr ("-adler").data output.data && checksum_type == "adler32" then "-adler"
    else if isSubstr ("-md5").data output.data && checksum_type == "md5" then "-md5"
    else ""
  (coption, st2)

/-- The copy command line of `_stagefile`:
`'%s -np -f %s %s %s' % (copy_command, coption, source, destination)`. -/
def stageCmd (coption source destination : String) (setup : Option String) : String :=
  withSetup setup (copy_command ++ " -np -f " ++ coption ++ " " ++ source ++ " " ++ destination)

/-- The `ValueError` message produced by unpacking a 2-tuple into the three
variables `filesize_output, checksum_output, checksum_type`. -/
def unpackErrMsg : String := "not enough values to unpack (expected 3, got 2)"

/-- Embedding of `_stagefile` (src/pilot/copytool/xrdcp.py, lines 91-129).
On nonzero exit it raises a `PilotException` built from the resolver's
dictionary.  On zero exit, when a checksum option was requested, it
3-unpacks the result of `get_file_info_from_output(stdout)`; when that
call took an early-exit branch it returns a 2-tuple and the unpacking
raises a `ValueError`.  The parsed values are bound to local variables and
never returned; `is_verified` is the literal `True`, guarding the
`AD_MISMATCH` raise.  The function body ends without a return statement,
so on success it returns `None` (here `Unit`). -/
def _stagefile_result (exec : Exec) (resolve : Resolver) (coption source destination : String)
    (filesize : Nat) (is_stagein : Bool) (setup : Option String) (callIdx : Nat) :
    Except PyErr Unit :=
  let r := exec callIdx (stageCmd coption source destination setup)
  if r.rcode ≠ 0 then
    let err := resolve (r.stdout ++ r.stderr) is_stagein
    .error (.pilot ⟨err.error, err.rcode, err.state⟩)
  else
    let unpack : Except PyErr Unit :=
      if coption ≠ "" then
        match get_file_info_from_output r.stdout with
        | .two _ _ => .error (.valueError unpackErrMsg)
        | .three _ _ _ => .ok ()
      else .ok ()
    match unpack with
    | .error e => .error e
    | .ok _ =>
      let is_verified := true
      if is_verified = false then
        let rcode := if is_stagein then GETADMISMATCH else PUTADMISMATCH
        .error (.pilot ⟨"Copy command failed", rcode, "AD_MISMATCH"⟩)
      else
        .ok ()

/-- `_stagefile` proper: its only state effect is the single `execute`
call, so it pairs the pure outcome above with that effect. -/
def _stagefile (exec : Exec) (resolve : Resolver) (coption source destination : String)
    (filesize : Nat) (is_stagein : Bool) (setup : Option String)
    (st : DriverState) : Except PyErr Unit × DriverState :=
  (_stagefile_result exec resolve coption source destination filesize is_stagein setup st.callIdx,
   { st with callIdx := st.callIdx + 1,
             cmds := st.cmds ++ [stageCmd coption source destination setup] })

/-- One file to transfer (`FileSpec`, supplied by the caller); `status`
and `status_code` start unset (`None`) and are mutated in place by the
drivers.  `directaccess` is the value of the external predicate
`fspec.is_directaccess(ensure_replica=False)`. -/
structure FileSpec where
  lfn : String
  scope : String := ""
  dataset : String := ""
  guid : String := ""
  turl : String := ""
  surl : String := ""
  ddmendpoint : String := ""
  filesize : Nat := 0
  workdir : Option String := none
  status : Option String := none
  status_code : Option Nat := none
  directaccess : Bool := false
deriving Repr, DecidableEq

/-- A default FileSpec used only as the out-of-range value of `List.getD`
in theorem statements. -/
def noFile : FileSpec := { lfn := "" }

/-- `guid.replace('-', '')`. -/
def stripDashes (s : String) : String :=
  ⟨s.data.filter (fun c => c ≠ '-')⟩

/-- `os.path.join(dst, lfn)` for the shapes that arise here. -/
def pjoin (a b : String) : String :=
  if isPfx ['/'] b.data then b
  else if a = "" then b
  else if a.data.getLast? == some '/' then a ++ b
  else a ++ "/" ++ b

/-- Result of a batch driver call: the (in-place mutated) file list, the
final side-effect state, and the propagated exception if any. -/
structure RunResult where
  files : List FileSpec
  st : DriverState
  err : Option PyErr
deriving Repr, DecidableEq

/-- The status code chosen by copy_in's `except` handler:
`error.get_error_code() if isinstance(error, PilotException) else ErrorCodes.STAGEINFAILED`. -/
def pyErrCodeIn : PyErr → Nat
  | .pilot te => te.code
  | .valueError _ => STAGEINFAILED

/-- The diagnostics chosen by copy_in's `except` handler:
`error.get_detail() if isinstance(error, PilotException) else "(consult log)"`. -/
def pyErrDetailIn : PyErr → String
  | .pilot te => te.message
  | .valueError _ => "(consult log)"

/-- The `localsite` reassignment at the top of copy_in's loop:
`localsite = localsite if localsite else fspec.ddmendpoint`. -/
def locUpd (f : FileSpec) (loc : Option String) : Option String :=
  if truthyS loc then loc else some f.ddmendpoint

/-- The three `trace_report.update(...)` calls at the top of copy_in's
loop body (site, filename/guid, scope/dataset fields). -/
def preStateIn (f : FileSpec) (loc : Option String) (st : DriverState) : DriverState :=
  { st with trace := { st.trace with
      localSite := loc, remoteSite := some f.ddmendpoint, filesize := some f.filesize,
      filename := some f.lfn, guid := some (stripDashes f.guid),
      scope := some f.scope, dataset := some f.dataset } }

/-- Descriptor mutation of the direct-access shortcut:
`fspec.status_code = 0; fspec.status = 'remote_io'`. -/
def daFile (f : FileSpec) : FileSpec :=
  { f with status_code := some 0, status := some ("remote_io") }

/-- The direct-access trace snapshot flushed for `f`. -/
def daTrace (f : FileSpec) (tr : TraceReport) : TraceReport :=
  { tr with url := some f.turl, clientState := some ("FOUND_ROOT"),
            stateReason := some ("direct_access") }

/-- The direct-access trace update followed by `trace_report.send()`. -/
def daState (f : FileSpec) (st : DriverState) : DriverState :=
  { st with trace := daTrace f st.trace, events := st.events ++ [daTrace f st.trace] }

/-- `trace_report.update(catStart=time())`. -/
def catStartState (st : DriverState) : DriverState :=
  { st with clock := st.clock + 1, trace := { st.trace with catStart := some st.clock } }

/-- `dst = fspec.workdir or kwargs.get('workdir') or '.'` (Python `or`
with string truthiness). -/
def dstDir (f : FileSpec) (workdir_kw : Option String) : String :=
  if truthyS f.workdir then f.workdir.getD ("")
  else if truthyS workdir_kw then workdir_kw.getD ("") else "."

/-- Descriptor mutation on stage success: `status_code = 0; status = 'transferred'`. -/
def okFile (f : FileSpec) : FileSpec :=
  { f with status_code := some 0, status := some ("transferred") }

/-- The success trace snapshot (`clientState='DONE', stateReason='OK',
timeEnd=time()`). -/
def okTrace (tr : TraceReport) (t : Nat) : TraceReport :=
  { tr with clientState := some ("DONE"), stateReason := some ("OK"), timeEnd := some t }

/-- Success trace update plus `send()`. -/
def okState (st : DriverState) : DriverState :=
  { st with clock := st.clock + 1, trace := okTrace st.trace st.clock,
            events := st.events ++ [okTrace st.trace st.clock] }

/-- Descriptor mutation in copy_in's `except` handler. -/
def failFileIn (f : FileSpec) (e : PyErr) : FileSpec :=
  { f with status := some ("failed"), status_code := some (pyErrCodeIn e) }

/-- The stage-in failure trace snapshot. -/
def failTraceIn (e : PyErr) (tr : TraceReport) (t : Nat) : TraceReport :=
  { tr with clientState := some ("STAGEIN_ATTEMPT_FAILED"),
            stateReason := some (pyErrDetailIn e), timeEnd := some t }

/-- Stage-in failure trace update plus `send()`. -/
def failStateIn (e : PyErr) (st : DriverState) : DriverState :=
  { st with clock := st.clock + 1, trace := failTraceIn e st.trace st.clock,
            events := st.events ++ [failTraceIn e st.trace st.clock] }

/-- Record the outcome of one `_stagefile` call (the exception, if any,
observed by the driver's `try` block) in the instrumentation log. -/
def logStage (lfn : String) (res : Except PyErr Unit) (st : DriverState) : DriverState :=
  { st with stageResults := st.stageResults ++ [(lfn, res)] }

/-- Per-file loop of `copy_in` (src/pilot/copytool/xrdcp.py, lines
146-181), with `localsite` threaded exactly as the Python local variable
is.  On a stage failure the handler sets status/status-code, flushes the
failure trace event and raises a fresh `PilotException` with state
`STAGEIN_ATTEMPT_FAILED`; the remaining files are not touched. -/
def copy_in_loop (exec : Exec) (resolve : Resolver) (allow_direct_access : Bool)
    (workdir_kw setup : Option String) (coption : String)
    (files : List FileSpec) (localsite : Option String) (st : DriverState) : RunResult :=
  match files with
  | [] => ⟨[], st, none⟩
  | f :: rest =>
    let loc := locUpd f localsite
    let st1 := preStateIn f loc st
    if f.directaccess && allow_direct_access then
      let r := copy_in_loop exec resolve allow_direct_access workdir_kw setup coption rest loc
                 (daState f st1)
      ⟨daFile f :: r.files, r.st, r.err⟩
    else
      let st2 := catStartState st1
      let destination := pjoin (dstDir f workdir_kw) f.lfn
      let s := _stagefile exec resolve coption f.turl destination f.filesize true setup st2
      let st3 := logStage f.lfn s.1 s.2
      match s.1 with
      | .ok _ =>
        let r := copy_in_loop exec resolve allow_direct_access workdir_kw setup coption rest loc
                   (okState st3)
        ⟨okFile f :: r.files, r.st, r.err⟩
      | .error e =>
        ⟨failFileIn f e :: rest, failStateIn e st3,
          some (.pilot ⟨pyErrDetailIn e, pyErrCodeIn e, "STAGEIN_ATTEMPT_FAILED"⟩)⟩

/-- Embedding of `copy_in` (src/pilot/copytool/xrdcp.py, lines 132-181).
`env_dq2` is `os.environ.get('DQ2_LOCAL_SITE_ID', None)`; `setup` is the
value extracted from the `copytools` keyword argument. -/
def copy_in (exec : Exec) (resolve : Resolver) (env_dq2 : Option String)
    (allow_direct_access : Bool) (workdir_kw setup : Option String)
    (files : List FileSpec) (st : DriverState) : RunResult :=
  copy_in_loop exec resolve allow_direct_access workdir_kw setup
    (_resolve_checksum_option exec setup st).1 files env_dq2
    (_resolve_checksum_option exec setup st).2

/-- Per-file loop of `copy_out` (src/pilot/copytool/xrdcp.py, lines
196-215).  The `except` clause catches ONLY `PilotException`: a stage
failure that raises any other exception (such as the tuple-unpacking
`ValueError`) propagates without touching the descriptor.  The handler's
`error.get('state', None) or 'STAGEOUT_ATTEMPT_FAILED'` and
`error.get('error', 'unknown error')` accessors are modelled from the
spec as field lookups on the TypedError with Python truthiness for the
`or`. -/
def preStateOut (f : FileSpec) (st : DriverState) : DriverState :=
  { st with clock := st.clock + 1, trace := { st.trace with
      scope := some f.scope, dataset := some f.dataset, url := some f.surl,
      filesize := some f.filesize,
      catStart := some st.clock, filename := some f.lfn, guid := some (stripDashes f.guid) } }

/-- Descriptor mutation in copy_out's `except PilotException` handler. -/
def failFileOut (f : FileSpec) (te : TypedError) : FileSpec :=
  { f with status := some ("failed"), status_code := some te.code }

/-- The stage-out failure trace snapshot. -/
def failTraceOut (te : TypedError) (tr : TraceReport) (t : Nat) : TraceReport :=
  { tr with clientState := some (if te.state ≠ "" then te.state else "STAGEOUT_ATTEMPT_FAILED"),
            stateReason := some te.message, timeEnd := some t }

/-- Stage-out failure trace update plus `send()`. -/
def failStateOut (te : TypedError) (st : DriverState) : DriverState :=
  { st with clock := st.clock + 1, trace := failTraceOut te st.trace st.clock,
            events := st.events ++ [failTraceOut te st.trace st.clock] }

def copy_out_loop (exec : Exec) (resolve : Resolver) (setup : Option String)
    (coption : String) (files : List FileSpec) (st : DriverState) : RunResult :=
  match files with
  | [] => ⟨[], st, none⟩
  | f :: rest =>
    let st1 := preStateOut f st
    let s := _stagefile exec resolve coption f.surl f.turl f.filesize false setup st1
    let st3 := logStage f.lfn s.1 s.2
    match s.1 with
    | .ok _ =>
      let r := copy_out_loop exec resolve setup coption rest (okState st3)
      ⟨okFile f :: r.files, r.st, r.err⟩
    | .error (.pilot te) =>
      ⟨failFileOut f te :: rest, failStateOut te st3, some (.pilot te)⟩
    | .error (.valueError m) =>
      ⟨f :: rest, st3, some (.valueError m)⟩

/-- Embedding of `copy_out` (src/pilot/copytool/xrdcp.py, lines 184-215). -/
def copy_out (exec : Exec) (resolve : Resolver) (setup : Option String)
    (files : List FileSpec) (st : DriverState) : RunResult :=
  copy_out_loop exec resolve setup (_resolve_checksum_option exec setup st).1 files
    (_resolve_checksum_option exec setup st).2

/-- Embedding of `get_timeout` (src/pilot/copytool/xrdcp.py, lines 38-46).
The Python expression `int(filesize / 0.5e6)` performs an exact real
division followed by truncation; for every filesize below `2^53 * 500000`
(far beyond the 3-hour cap at 5.25e9 bytes) the nearest-double rounding
cannot cross an integer boundary, so it equals floor division by 500000,
which is how it is modelled here. -/
def get_timeout (filesize : Nat) : Nat :=
  let timeout_max := 3 * 3600
  let timeout_min := 300
  let timeout := timeout_min + filesize / 500000
  min timeout timeout_max

/-! ## Decimal rendering, used to state the parser round-trip claim -/

/-- The decimal digit character of a value below ten. -/
def digitChar : Nat → Char
  | 0 => '0' | 1 => '1' | 2 => '2' | 3 => '3' | 4 => '4'
  | 5 => '5' | 6 => '6' | 7 => '7' | 8 => '8' | _ => '9'

/-- Decimal rendering of a natural number (Python's `str(s)`), most
significant digit first. -/
def natToDecimal (n : Nat) : List Char :=
  if n = 0 then ['0'] else ((Nat.digits 10 n).map digitChar).reverse

/-! ## Concrete oracles used by witnesses, counterexamples and evaluations -/

/-- An executor whose every command exits 0 with empty output. -/
def execEmptyOut : Exec := fun _ _ => ExecResult.mk 0 "" ""

/-- An executor that advertises `--cksum` support on the help probe and
otherwise exits 0 printing a well-formed adler32 summary line. -/
def execAdler : Exec := fun _ cmd =>
  if cmd = helpCmd none then ExecResult.mk 0 "--cksum usage" ""
  else ExecResult.mk 0 "adler32: 1a2b3c 1a2b3c4d 1000000" ""

/-- An executor whose every command exits 1. -/
def execAllFail : Exec := fun _ _ => ExecResult.mk 1 "transfer failed" ""

/-- A resolver returning a fixed classification. -/
def resolve0 : Resolver := fun _ _ => ResolvedError.mk ("boom") 1234 "TRANSFER_ERROR"


/-- An executor for the three-file stage-in scenario of the spec: probes
advertise `--cksum`, the copy of `root://b` exits 1, other copies succeed
with a well-formed adler32 line. -/
def execBatchIn : Exec := fun _ cmd =>
  if cmd = helpCmd none then ExecResult.mk 0 "--cksum usage" ""
  else if isSubstr (("root://b").data) cmd.data then ExecResult.mk 1 "No space left on device" ""
  else ExecResult.mk 0 "adler32: 1a2b3c 1a2b3c4d 1000000" ""

/-- The three-file batch of the spec's stage-in scenario. -/
def filesBatch : List FileSpec :=
  [{ lfn := "a", turl := "root://a" }, { lfn := "b", turl := "root://b" },
   { lfn := "c", turl := "root://c" }]

/-- An executor whose help probe advertises `--cksum` and whose copy
commands exit 0 with empty output (triggering the unpacking bug). -/
def execCksumEmpty : Exec := fun idx _ =>
  if idx = 1 then ExecResult.mk 0 "--cksum" "" else ExecResult.mk 0 "" ""

/-- A single stage-out file. -/
def fileX : FileSpec := { lfn := "x", surl := "/x", turl := "root://x" }

/-- A direct-access-capable stage-in file. -/
def fileDA : FileSpec := { lfn := "d", turl := "root://d", directaccess := true }

/-- Postcondition claimed by C1 for a failed stage-in batch call on input
`files`, result `R` and propagated exception `e`: the exception is a
PilotException in state STAGEIN_ATTEMPT_FAILED; some position k failed
with status `failed` and status code equal to the code of the exception
raised by the k-th `_stagefile` call when that is a PilotException, and
the STAGEINFAILED fallback otherwise; every earlier file ended
`transferred` or `remote_io` with status code 0; every later file is
untouched; and the last flushed trace event is the k-th file's failure
event with an end timestamp. -/
def copyInFailureSpec (files : List FileSpec) (R : RunResult) (e : PyErr) : Prop :=
  ∃ pe k,
    e = PyErr.pilot pe ∧
    pe.state = "STAGEIN_ATTEMPT_FAILED" ∧
    k < files.length ∧
    R.files.length = files.length ∧
    (R.files.getD k noFile).status = some ("failed") ∧
    (R.files.getD k noFile).status_code = some pe.code ∧
    (∃ res, R.st.stageResults.getLast? = some ((files.getD k noFile).lfn, Except.error res) ∧
      pe.code = pyErrCodeIn res ∧ pe.message = pyErrDetailIn res) ∧
    (∀ i, i < k → (R.files.getD i noFile).status = some ("transferred") ∨
      (R.files.getD i noFile).status = some ("remote_io")) ∧
    (∀ i, i < k → (R.files.getD i noFile).status_code = some 0) ∧
    (∀ j, k < j → R.files.getD j noFile = files.getD j noFile) ∧
    (∃ ev, R.st.events.getLast? = some ev ∧
      ev.clientState = some ("STAGEIN_ATTEMPT_FAILED") ∧
      ev.stateReason = some pe.message ∧
      ev.filename = some ((files.getD k noFile).lfn) ∧
      ev.timeEnd.isSome = true)

theorem digitChar_toNat {d : Nat} (h : d < 10) : (digitChar d).toNat = 48 + d := by
  interval_cases d <;> rfl

theorem digitsToNat_append (l : List Char) (c : Char) :
    digitsToNat (l ++ [c]) = digitsToNat l * 10 + (c.toNat - 48) := by
  simp [digitsToNat, List.foldl_append]

theorem digitsToNat_rev_map (L : List Nat) (h : ∀ x ∈ L, x < 10) :
    digitsToNat ((L.map digitChar).reverse) = Nat.ofDigits 10 L := by
  induction L with
  | nil => simp [digitsToNat, Nat.ofDigits]
  | cons x T ih =>
    simp only [List.map_cons, List.reverse_cons]
    rw [digitsToNat_append, ih (fun y hy => h y (List.mem_cons_of_mem x hy)),
        digitChar_toNat (h x (List.mem_cons_self x T)), Nat.ofDigits_cons]
    omega

theorem natToDecimal_val (n : Nat) : digitsToNat (natToDecimal n) = n := by
  by_cases h : n = 0
  · subst h; decide
  · rw [natToDecimal, if_neg h,
        digitsToNat_rev_map _ (fun x hx => Nat.digits_lt_base (by norm_num) hx)]
    exact Nat.ofDigits_digits 10 n

theorem natToDecimal_digits (n : Nat) : ∀ c ∈ natToDecimal n, isDigitCh c = true := by
  by_cases h : n = 0
  · subst h; intro c hc; simp [natToDecimal] at hc; subst hc; decide
  · rw [natToDecimal, if_neg h]
    intro c hc
    rw [List.mem_reverse, List.mem_map] at hc
    obtain ⟨d, hd, rfl⟩ := hc
    have hd10 : d < 10 := Nat.digits_lt_base (by norm_num) hd
    simp only [isDigitCh, digitChar_toNat hd10, Bool.and_eq_true, decide_eq_true_eq]
    omega

theorem natToDecimal_ne_nil (n : Nat) : natToDecimal n ≠ [] := by
  by_cases h : n = 0
  · subst h; decide
  · rw [natToDecimal, if_neg h]
    intro hc
    rw [List.reverse_eq_nil_iff, List.map_eq_nil_iff] at hc
    exact h (Nat.digits_eq_nil_iff_eq_zero.mp hc)

/-! ## takeWhile and dropWhile over decomposed inputs -/

theorem takeWhile_all {α} (p : α → Bool) (l : List α) (h : ∀ x ∈ l, p x = true) :
    l.takeWhile p = l := by
  induction l with
  | nil => rfl
  | cons a as ih =>
    rw [List.takeWhile_cons_of_pos (h a (List.mem_cons_self a as)),
        ih (fun x hx => h x (List.mem_cons_of_mem a hx))]

theorem takeWhile_all_append {α} (p : α → Bool) (l : List α) (b : α) (r : List α)
    (hl : ∀ x ∈ l, p x = true) (hb : p b = false) :
    (l ++ b :: r).takeWhile p = l := by
  induction l with
  | nil => simp [List.takeWhile_cons, hb]
  | cons a as ih =>
    simp only [List.cons_append]
    rw [List.takeWhile_cons_of_pos (hl a (List.mem_cons_self a as)),
        ih (fun x hx => hl x (List.mem_cons_of_mem a hx))]

theorem dropWhile_all_append {α} (p : α → Bool) (l : List α) (b : α) (r : List α)
    (hl : ∀ x ∈ l, p x = true) (hb : p b = false) :
    (l ++ b :: r).dropWhile p = b :: r := by
  induction l with
  | nil => simp [List.dropWhile_cons, hb]
  | cons a as ih =>
    simp only [List.cons_append]
    rw [List.dropWhile_cons_of_pos (hl a (List.mem_cons_self a as)),
        ih (fun x hx => hl x (List.mem_cons_of_mem a hx))]

theorem isSubstr_of_isPfx {pat s : List Char} (h : isPfx pat s = true) :
    isSubstr pat s = true := by
  cases s with
  | nil => simpa [isSubstr] using h
  | cons a rest => simp [isSubstr, h]

/-! ## Character-class bridges -/

theorem hex_alnum {c : Char} (h : isHexCh c = true) : isAlnumCh c = true := by
  simp only [isHexCh, isDigitCh, isAlnumCh, Bool.or_eq_true, Bool.and_eq_true,
    decide_eq_true_eq] at h ⊢
  omega

theorem hex_not_space {c : Char} (h : isHexCh c = true) : isSpaceCh c = false := by
  simp only [isHexCh, isDigitCh, Bool.or_eq_true, Bool.and_eq_true,
    decide_eq_true_eq] at h
  simp only [isSpaceCh, Bool.or_eq_false_iff, decide_eq_false_iff_not]
  omega

theorem zfill8_pad {c : List Char} (h : c.length ≤ 8) :
    zfill8 c = List.replicate (8 - c.length) '0' ++ c := by
  by_cases h8 : c.length < 8
  · rw [zfill8, if_pos h8]
  · rw [zfill8, if_neg h8]
    have : c.length = 8 := by omega
    rw [this]
    simp

/-! ## Theorems -/

/-- C8: for every filesize f ≥ 0 the timeout estimator returns
max(300, min(10800, 300 + f / 500000)); hence it is bounded by 300 and
10800 and is monotonically non-decreasing in f. -/
theorem get_timeout_spec :
    (∀ f, get_timeout f = max 300 (min 10800 (300 + f / 500000))) ∧
    (∀ f, 300 ≤ get_timeout f ∧ get_timeout f ≤ 10800) ∧
    (∀ f g, f ≤ g → get_timeout f ≤ get_timeout g) := by
  refine ⟨?_, ?_, ?_⟩
  · intro f; simp only [get_timeout]; omega
  · intro f; simp only [get_timeout]; omega
  · intro f g h
    have hd : f / 500000 ≤ g / 500000 := Nat.div_le_div_right h
    simp only [get_timeout]; omega

/-- Witness for C8: the monotonicity hypothesis discharged at 0 ≤ 1000000. -/
theorem get_timeout_spec_witness :
    (0 : Nat) ≤ 1000000 ∧ get_timeout 0 ≤ get_timeout 1000000 :=
  ⟨by decide, get_timeout_spec.2.2 0 1000000 (by decide)⟩

/-- C9: whenever the help probe (the second subprocess of the resolver,
whose exit code is the one inspected) exits nonzero, the checksum-option
resolver returns the empty command-line fragment; the embedding is a total
function, so no exception is raised. -/
theorem resolve_checksum_option_probe_failure
    (exec : Exec) (setup : Option String) (st : DriverState)
    (h : (exec (st.callIdx + 1) (helpCmd setup)).rcode ≠ 0) :
    (_resolve_checksum_option exec setup st).1 = "" := by
  simp only [_resolve_checksum_option, executeCmd]
  rw [if_pos h]

/-- Witness for C9: a probe that exits 1 yields the empty fragment. -/
theorem resolve_checksum_option_probe_failure_witness :
    (execAllFail ((0 : Nat) + 1) (helpCmd none)).rcode ≠ 0 ∧
    (_resolve_checksum_option execAllFail none {}).1 = "" :=
  ⟨by decide, resolve_checksum_option_probe_failure execAllFail none {} (by decide)⟩

/-- C5 (code bug): on empty or marker-free input the parser takes an
early-exit branch that returns the 2-tuple `None, None` — not the
`(None, None, None)` triple its own docstring promises — though it indeed
raises no exception itself. -/
theorem parser_markerfree_returns_pair
    (out : List Char)
    (h1 : isSubstr ("xrootd".data) out = false)
    (h2 : isSubstr ("XRootD".data) out = false)
    (h3 : isSubstr ("adler32".data) out = false) :
    get_file_info_core out = ParseOut.two none none := by
  cases out with
  | nil => rfl
  | cons c cs => simp [get_file_info_core, h1, h2, h3]

/-- Witness for C5: the marker-free input "hello". -/
theorem parser_markerfree_returns_pair_witness :
    (isSubstr ("xrootd".data) ("hello".data) = false ∧
     isSubstr ("XRootD".data) ("hello".data) = false ∧
     isSubstr ("adler32".data) ("hello".data) = false) ∧
    get_file_info_core ("hello".data) = ParseOut.two none none :=
  ⟨⟨by decide, by decide, by decide⟩,
   parser_markerfree_returns_pair ("hello".data) (by decide) (by decide) (by decide)⟩

/-- C3 (code bug): a copy command that exits 0 with empty output, with a
checksum flag requested, makes `_stagefile` raise: the parser's early-exit
2-tuple is unpacked into three variables, a `ValueError`. -/
theorem stagefile_zero_exit_raises_on_empty_output :
    (_stagefile execEmptyOut resolve0 "--cksum adler32:print" "root://x" "./x" 5 true none
        {}).1 = Except.error (PyErr.valueError unpackErrMsg) := by decide

/-- C2 (code bug): with a stub copy tool that exits 0 printing
"adler32: 1a2b3c 1a2b3c4d 1000000" and a checksum flag requested, the
output parser recovers size 1000000, checksum "001a2b3c" (zero-padded to
8 characters) and type adler32 — but `_stagefile` binds these to local
variables and falls off the end of its body, returning `None` (here
`Except.ok ()`), not the documented TransferOutcome. -/
theorem stagefile_discards_parsed_outcome :
    (_stagefile execAdler resolve0 "--cksum adler32:print" "root://a.root" "wd/a.root" 1000000
        true none {}).1 = Except.ok () ∧
    get_file_info_from_output ("adler32: 1a2b3c 1a2b3c4d 1000000")
      = ParseOut.three (some 1000000) (some (("001a2b3c").data))
          (some (("adler32").data)) := by decide

/-- C10 (code bug): every failure `_stagefile` raises is either the
PilotException built from the resolver's classification on a nonzero exit
code, or the tuple-unpacking ValueError on a zero exit code — the
`AD_MISMATCH` branch (guarded by the constant `is_verified = True`) never
fires.  The second conjunct exhibits a failure that does NOT originate
from a nonzero exit code, refuting that part of the claim. -/
theorem stagefile_error_characterization :
    (∀ (exec : Exec) (resolve : Resolver) (coption source destination : String)
        (filesize : Nat) (is_stagein : Bool) (setup : Option String) (st : DriverState)
        (e : PyErr),
      (_stagefile exec resolve coption source destination filesize is_stagein setup st).1
          = Except.error e →
      ((exec st.callIdx (stageCmd coption source destination setup)).rcode ≠ 0 ∧
        e = PyErr.pilot
          ⟨(resolve ((exec st.callIdx (stageCmd coption source destination setup)).stdout ++
              (exec st.callIdx (stageCmd coption source destination setup)).stderr) is_stagein).error,
           (resolve ((exec st.callIdx (stageCmd coption source destination setup)).stdout ++
              (exec st.callIdx (stageCmd coption source destination setup)).stderr) is_stagein).rcode,
           (resolve ((exec st.callIdx (stageCmd coption source destination setup)).stdout ++
              (exec st.callIdx (stageCmd coption source destination setup)).stderr) is_stagein).state⟩) ∨
      ((exec st.callIdx (stageCmd coption source destination setup)).rcode = 0 ∧
        e = PyErr.valueError unpackErrMsg)) ∧
    (_stagefile execEmptyOut resolve0 "--cksum adler32:print" "root://y" "./y" 7 true none
        {}).1 = Except.error (PyErr.valueError unpackErrMsg) := by
  constructor
  · intro exec resolve coption source destination filesize is_stagein setup st e h
    simp only [_stagefile, _stagefile_result] at h
    by_cases hrc : (exec st.callIdx (stageCmd coption source destination setup)).rcode ≠ 0
    · rw [if_pos hrc] at h
      exact Or.inl ⟨hrc, by cases h; rfl⟩
    · rw [if_neg hrc] at h
      refine Or.inr ⟨by omega, ?_⟩
      by_cases hco : coption ≠ ""
      · rw [if_pos hco] at h
        revert h
        cases get_file_info_from_output
            (exec st.callIdx (stageCmd coption source destination setup)).stdout with
        | two a b => intro h; cases h; rfl
        | three a b c => intro h; cases h
      · rw [if_neg hco] at h
        cases h
  · decide

/-- Witness for C10's universally quantified conjunct: a nonzero-exit run
lands in the first disjunct. -/
theorem stagefile_error_characterization_witness :
    ((_stagefile execAllFail resolve0 "-adler" "root://z" "./z" 3 true none {}).1
        = Except.error (PyErr.pilot ⟨"boom", 1234, "TRANSFER_ERROR"⟩)) ∧
    (((execAllFail (DriverState.callIdx {}) (stageCmd "-adler" "root://z" "./z" none)).rcode ≠ 0 ∧
        PyErr.pilot ⟨"boom", 1234, "TRANSFER_ERROR"⟩ = PyErr.pilot
          ⟨(resolve0 ((execAllFail (DriverState.callIdx {}) (stageCmd "-adler" "root://z" "./z" none)).stdout ++
              (execAllFail (DriverState.callIdx {}) (stageCmd "-adler" "root://z" "./z" none)).stderr) true).error,
           (resolve0 ((execAllFail (DriverState.callIdx {}) (stageCmd "-adler" "root://z" "./z" none)).stdout ++
              (execAllFail (DriverState.callIdx {}) (stageCmd "-adler" "root://z" "./z" none)).stderr) true).rcode,
           (resolve0 ((execAllFail (DriverState.callIdx {}) (stageCmd "-adler" "root://z" "./z" none)).stdout ++
              (execAllFail (DriverState.callIdx {}) (stageCmd "-adler" "root://z" "./z" none)).stderr) true).state⟩) ∨
      ((execAllFail (DriverState.callIdx {}) (stageCmd "-adler" "root://z" "./z" none)).rcode = 0 ∧
        PyErr.pilot ⟨"boom", 1234, "TRANSFER_ERROR"⟩ = PyErr.valueError unpackErrMsg)) :=
  ⟨by decide,
   stagefile_error_characterization.1 execAllFail resolve0 "-adler" "root://z" "./z" 3 true none
     {} (PyErr.pilot ⟨"boom", 1234, "TRANSFER_ERROR"⟩) (by decide)⟩

/-- C4 counterexample: the claimed round-trip fails for type md5, because
a bare "md5: <c> <ignored> <s>" line contains none of the success markers
("xrootd", "XRootD", "adler32") and is rejected by the parser's marker
precheck before the regular expression ever runs (and the early exit even
returns a 2-tuple rather than a triple). -/
theorem parse_roundtrip_md5_counterexample :
    get_file_info_core (("md5: ab cd 5").data) = ParseOut.two none none ∧
    ParseOut.two none none ≠ ParseOut.three (some 5)
      (some (List.replicate 6 '0' ++ ('a' :: 'b' :: []))) (some (("md5").data)) := by
  decide

/-- C4 (amended): the round-trip holds for type adler32 — for every
checksum value c that is a nonempty hex string of at most 8 characters,
every nonempty whitespace-free ignored token, and every size s, parsing
"adler32: <c> <ignored> <s>" yields the triple (s, c left-padded with
zeros to 8 characters, adler32). -/
theorem parse_roundtrip_adler32
    (c ig : List Char) (s : Nat)
    (hc0 : c ≠ []) (hc8 : c.length ≤ 8) (hcx : ∀ x ∈ c, isHexCh x = true)
    (hg0 : ig ≠ []) (hgs : ∀ x ∈ ig, isSpaceCh x = false) :
    get_file_info_core ((("adler32: ").data) ++ c ++ ' ' :: ig ++ ' ' :: natToDecimal s)
      = ParseOut.three (some s) (some (List.replicate (8 - c.length) '0' ++ c))
          (some (("adler32").data)) := by
  have hcAll : ∀ x ∈ c, isAlnumCh x = true := fun x hx => hex_alnum (hcx x hx)
  have hgAll : ∀ x ∈ ig, (!(isSpaceCh x)) = true := by
    intro x hx; rw [hgs x hx]; rfl
  have htak1 : List.takeWhile isAlnumCh (c ++ ' ' :: (ig ++ ' ' :: natToDecimal s)) = c :=
    takeWhile_all_append _ _ _ _ hcAll (by decide)
  have hdrp1 : List.dropWhile isAlnumCh (c ++ ' ' :: (ig ++ ' ' :: natToDecimal s))
      = ' ' :: (ig ++ ' ' :: natToDecimal s) :=
    dropWhile_all_append _ _ _ _ hcAll (by decide)
  have htak2 : List.takeWhile (fun ch => !(isSpaceCh ch)) (ig ++ ' ' :: natToDecimal s) = ig :=
    takeWhile_all_append _ _ _ _ hgAll (by decide)
  have hdrp2 : List.dropWhile (fun ch => !(isSpaceCh ch)) (ig ++ ' ' :: natToDecimal s)
      = ' ' :: natToDecimal s :=
    dropWhile_all_append _ _ _ _ hgAll (by decide)
  have htak3 : List.takeWhile isDigitCh (natToDecimal s) = natToDecimal s :=
    takeWhile_all _ _ (natToDecimal_digits s)
  have hce : c.isEmpty = false := by
    cases c with
    | nil => exact absurd rfl hc0
    | cons _ _ => rfl
  have hge : ig.isEmpty = false := by
    cases ig with
    | nil => exact absurd rfl hg0
    | cons _ _ => rfl
  have hdse : (natToDecimal s).isEmpty = false := by
    cases hnd : natToDecimal s with
    | nil => exact absurd hnd (natToDecimal_ne_nil s)
    | cons _ _ => rfl
  have h4 : matchSize (("adler32").data) c (' ' :: natToDecimal s)
      = some ((("adler32").data), c, natToDecimal s) := by
    simp only [matchSize]
    rw [htak3, hdse]
    simp
  have h3 : matchTok (("adler32").data) c (' ' :: (ig ++ ' ' :: natToDecimal s))
      = some ((("adler32").data), c, natToDecimal s) := by
    simp only [matchTok]
    rw [htak2, hdrp2, hge]
    simp [h4]
  have h2 : matchChecksum (("adler32").data) (c ++ ' ' :: (ig ++ ' ' :: natToDecimal s))
      = some ((("adler32").data), c, natToDecimal s) := by
    simp only [matchChecksum]
    rw [htak1, hdrp1, hce]
    simp [h3]
  have hinput : (("adler32: ").data) ++ c ++ ' ' :: ig ++ ' ' :: natToDecimal s
      = 'a' :: 'd' :: 'l' :: 'e' :: 'r' :: '3' :: '2' :: ':' :: ' ' ::
          (c ++ ' ' :: (ig ++ ' ' :: natToDecimal s)) := by
    simp
  rw [hinput]
  have hpfx_a : isPfx (("adler32").data)
      ('a' :: 'd' :: 'l' :: 'e' :: 'r' :: '3' :: '2' :: ':' :: ' ' ::
        (c ++ ' ' :: (ig ++ ' ' :: natToDecimal s))) = true := rfl
  have ht : tryMatchAt
      ('a' :: 'd' :: 'l' :: 'e' :: 'r' :: '3' :: '2' :: ':' :: ' ' ::
        (c ++ ' ' :: (ig ++ ' ' :: natToDecimal s)))
      = some ((("adler32").data), c, natToDecimal s) := by
    simp only [tryMatchAt]
    rw [if_neg (by intro hx; exact absurd hx (by simp [isPfx])), if_pos hpfx_a]
    show matchAfterType (("adler32").data)
        (':' :: ' ' :: (c ++ ' ' :: (ig ++ ' ' :: natToDecimal s))) = _
    simp only [matchAfterType]
    exact h2
  have hsearch : reSearch
      ('a' :: 'd' :: 'l' :: 'e' :: 'r' :: '3' :: '2' :: ':' :: ' ' ::
        (c ++ ' ' :: (ig ++ ' ' :: natToDecimal s)))
      = some ((("adler32").data), c, natToDecimal s) := by
    rw [reSearch, ht]
  have hm3 : isSubstr (("adler32").data)
      ('a' :: 'd' :: 'l' :: 'e' :: 'r' :: '3' :: '2' :: ':' :: ' ' ::
        (c ++ ' ' :: (ig ++ ' ' :: natToDecimal s))) = true :=
    isSubstr_of_isPfx hpfx_a
  simp only [get_file_info_core, List.isEmpty_cons, hm3, Bool.or_true, Bool.not_true,
    Bool.false_eq_true, if_false, hsearch]
  rw [natToDecimal_val, zfill8_pad hc8]

/-- Witness for C4's amended round-trip: c = "1a2b3c", ignored = "1a2b3c4d",
s = 1000000, matching the spec's end-to-end scenario line. -/
theorem parse_roundtrip_adler32_witness :
    get_file_info_core ((("adler32: ").data) ++ (("1a2b3c").data) ++ ' ' ::
        (("1a2b3c4d").data) ++ ' ' :: natToDecimal 1000000)
      = ParseOut.three (some 1000000)
          (some (List.replicate (8 - (("1a2b3c").data).length) '0' ++ (("1a2b3c").data)))
          (some (("adler32").data)) :=
  parse_roundtrip_adler32 (("1a2b3c").data) (("1a2b3c4d").data) 1000000
    (by decide) (by decide) (by decide) (by decide) (by decide)

/-- Induction workhorse shared by the batch-driver claims: a failed
stage-in loop run satisfies the C1 postcondition, relative to any starting
state, localsite and option fragment. -/
theorem copy_in_loop_failure_aux (exec : Exec) (resolve : Resolver) (ada : Bool)
    (wkw setup : Option String) (coption : String) :
    ∀ (files : List FileSpec) (loc : Option String) (st : DriverState) (e : PyErr),
      (copy_in_loop exec resolve ada wkw setup coption files loc st).err = some e →
      copyInFailureSpec files (copy_in_loop exec resolve ada wkw setup coption files loc st) e := by
  intro files
  induction files with
  | nil =>
    intro loc st e h
    simp [copy_in_loop] at h
  | cons f rest ih =>
    intro loc st e h
    simp only [copy_in_loop, _stagefile] at h ⊢
    by_cases hda : (f.directaccess && ada) = true
    · rw [if_pos hda] at h ⊢
      have H := ih (locUpd f loc) (daState f (preStateIn f (locUpd f loc) st)) e h
      simp only [copyInFailureSpec] at H ⊢
      obtain ⟨pe, k, hepe, hstate, hk, hlen, hfk, hck, ⟨res, hres, hrc, hrm⟩,
        hpre1, hpre2, hsuf, ⟨ev, hev, hev1, hev2, hev3, hev4⟩⟩ := H
      refine ⟨pe, k + 1, hepe, hstate, ?_, ?_, ?_, ?_, ⟨res, ?_, hrc, hrm⟩, ?_, ?_, ?_,
        ⟨ev, ?_, hev1, hev2, ?_, hev4⟩⟩
      · simpa using hk
      · simpa using hlen
      · simpa using hfk
      · simpa using hck
      · simpa using hres
      · intro i hi
        cases i with
        | zero => exact Or.inr (by simp [daFile])
        | succ i' => simpa using hpre1 i' (by omega)
      · intro i hi
        cases i with
        | zero => simp [daFile]
        | succ i' => simpa using hpre2 i' (by omega)
      · intro j hj
        cases j with
        | zero => exact absurd hj (by omega)
        | succ j' => simpa using hsuf j' (by omega)
      · simpa using hev
      · simpa using hev3
    · rw [if_neg hda] at h ⊢
      revert h
      cases hsr : _stagefile_result exec resolve coption f.turl (pjoin (dstDir f wkw) f.lfn)
          f.filesize true setup (catStartState (preStateIn f (locUpd f loc) st)).callIdx with
      | ok u =>
        intro h
        dsimp only at h ⊢
        have H := ih _ _ e h
        simp only [copyInFailureSpec] at H ⊢
        obtain ⟨pe, k, hepe, hstate, hk, hlen, hfk, hck, ⟨res, hres, hrc, hrm⟩,
          hpre1, hpre2, hsuf, ⟨ev, hev, hev1, hev2, hev3, hev4⟩⟩ := H
        refine ⟨pe, k + 1, hepe, hstate, ?_, ?_, ?_, ?_, ⟨res, ?_, hrc, hrm⟩, ?_, ?_, ?_,
          ⟨ev, ?_, hev1, hev2, ?_, hev4⟩⟩
        · simpa using hk
        · simpa using hlen
        · simpa using hfk
        · simpa using hck
        · simpa using hres
        · intro i hi
          cases i with
          | zero => exact Or.inl (by simp [okFile])
          | succ i' => simpa using hpre1 i' (by omega)
        · intro i hi
          cases i with
          | zero => simp [okFile]
          | succ i' => simpa using hpre2 i' (by omega)
        · intro j hj
          cases j with
          | zero => exact absurd hj (by omega)
          | succ j' => simpa using hsuf j' (by omega)
        · simpa using hev
        · simpa using hev3
      | error e0 =>
        intro h
        dsimp only at h ⊢
        simp only [copyInFailureSpec]
        have he : e = PyErr.pilot ⟨pyErrDetailIn e0, pyErrCodeIn e0, "STAGEIN_ATTEMPT_FAILED"⟩ :=
          (Option.some.inj h).symm
        refine ⟨⟨pyErrDetailIn e0, pyErrCodeIn e0, "STAGEIN_ATTEMPT_FAILED"⟩, 0,
          he, rfl, by simp, by simp, by simp [failFileIn], by simp [failFileIn],
          ⟨e0, ?_, rfl, rfl⟩, ?_, ?_, ?_, ?_⟩
        · simp [failStateIn, logStage, List.getLast?_concat]
        · intro i hi; exact absurd hi (by omega)
        · intro i hi; exact absurd hi (by omega)
        · intro j hj
          cases j with
          | zero => exact absurd hj (by omega)
          | succ j' => simp
        · refine ⟨failTraceIn e0
            (logStage f.lfn (Except.error e0)
              { catStartState (preStateIn f (locUpd f loc) st) with
                  callIdx := (catStartState (preStateIn f (locUpd f loc) st)).callIdx + 1,
                  cmds := (catStartState (preStateIn f (locUpd f loc) st)).cmds ++
                    [stageCmd coption f.turl (pjoin (dstDir f wkw) f.lfn) setup] }).trace
            (logStage f.lfn (Except.error e0)
              { catStartState (preStateIn f (locUpd f loc) st) with
                  callIdx := (catStartState (preStateIn f (locUpd f loc) st)).callIdx + 1,
                  cmds := (catStartState (preStateIn f (locUpd f loc) st)).cmds ++
                    [stageCmd coption f.turl (pjoin (dstDir f wkw) f.lfn) setup] }).clock,
            ?_, rfl, rfl, rfl, rfl⟩
          simp [failStateIn, List.getLast?_concat]

/-- C1: for stage-in over any list of FileSpecs, when the per-file stage
operation fails on the k-th file, every earlier file that was transferred
has status `transferred` (or `remote_io`) with status code 0, the k-th
file has status `failed` with status code equal to the classified
PilotException's code (or the STAGEINFAILED fallback when the raised
error is not a PilotException), all later files are untouched, and the
call propagates a PilotException in state STAGEIN_ATTEMPT_FAILED whose
trace event is the last one flushed. -/
theorem copy_in_stops_at_first_failure
    (exec : Exec) (resolve : Resolver) (env_dq2 : Option String) (ada : Bool)
    (wkw setup : Option String) (files : List FileSpec) (st : DriverState) (e : PyErr)
    (h : (copy_in exec resolve env_dq2 ada wkw setup files st).err = some e) :
    copyInFailureSpec files (copy_in exec resolve env_dq2 ada wkw setup files st) e := by
  simp only [copy_in] at h ⊢
  exact copy_in_loop_failure_aux exec resolve ada wkw setup _ files env_dq2 _ e h

/-- Witness for C1: the spec's three-file scenario, where file `b` fails
with the classified code 1234, file `a` ends transferred, file `c` stays
pending. -/
theorem copy_in_stops_at_first_failure_witness :
    ((copy_in execBatchIn resolve0 none false none none filesBatch {}).err
        = some (PyErr.pilot ⟨"boom", 1234, "STAGEIN_ATTEMPT_FAILED"⟩)) ∧
    copyInFailureSpec filesBatch
      (copy_in execBatchIn resolve0 none false none none filesBatch {})
      (PyErr.pilot ⟨"boom", 1234, "STAGEIN_ATTEMPT_FAILED"⟩) :=
  ⟨by decide,
   copy_in_stops_at_first_failure execBatchIn resolve0 none false none none filesBatch {}
     (PyErr.pilot ⟨"boom", 1234, "STAGEIN_ATTEMPT_FAILED"⟩) (by decide)⟩

/-- Induction workhorse for the stage-out driver: a PilotException
propagated by the loop leaves some file with status `failed` and the
exception's code recorded. -/
theorem copy_out_loop_failure_aux (exec : Exec) (resolve : Resolver) (setup : Option String)
    (coption : String) :
    ∀ (files : List FileSpec) (st : DriverState) (te : TypedError),
      (copy_out_loop exec resolve setup coption files st).err = some (PyErr.pilot te) →
      ∃ k, k < files.length ∧
        (((copy_out_loop exec resolve setup coption files st).files.getD k noFile).status
            = some ("failed")) ∧
        (((copy_out_loop exec resolve setup coption files st).files.getD k noFile).status_code
            = some te.code) := by
  intro files
  induction files with
  | nil =>
    intro st te h
    simp [copy_out_loop] at h
  | cons f rest ih =>
    intro st te h
    simp only [copy_out_loop, _stagefile] at h ⊢
    revert h
    cases hsr : _stagefile_result exec resolve coption f.surl f.turl f.filesize false setup
        (preStateOut f st).callIdx with
    | ok u =>
      intro h
      dsimp only at h ⊢
      obtain ⟨k, hk, h1, h2⟩ := ih _ te h
      exact ⟨k + 1, by simpa using hk, by simpa using h1, by simpa using h2⟩
    | error e0 =>
      cases e0 with
      | pilot te' =>
        intro h
        dsimp only at h ⊢
        have hte : te' = te := by
          have h2 := Option.some.inj h
          injection h2
        subst hte
        exact ⟨0, by simp, by simp [failFileOut], by simp [failFileOut]⟩
      | valueError m =>
        intro h
        dsimp only at h
        simp at h

/-- C6 (amended): when a batch driver propagates a failure, the failing
file's status was set to `failed` (with a status code) before
propagation — for stage-in this holds for every exception; for stage-out
it holds for PilotException failures (the only kind its handler catches;
see the counterexample for the escaping ValueError). -/
theorem drivers_record_failure_before_raising :
    (∀ (exec : Exec) (resolve : Resolver) (env_dq2 : Option String) (ada : Bool)
        (wkw setup : Option String) (files : List FileSpec) (st : DriverState) (e : PyErr),
      (copy_in exec resolve env_dq2 ada wkw setup files st).err = some e →
      ∃ k, k < files.length ∧
        (((copy_in exec resolve env_dq2 ada wkw setup files st).files.getD k noFile).status
            = some ("failed")) ∧
        (((copy_in exec resolve env_dq2 ada wkw setup files st).files.getD k
            noFile).status_code.isSome = true)) ∧
    (∀ (exec : Exec) (resolve : Resolver) (setup : Option String) (files : List FileSpec)
        (st : DriverState) (te : TypedError),
      (copy_out exec resolve setup files st).err = some (PyErr.pilot te) →
      ∃ k, k < files.length ∧
        (((copy_out exec resolve setup files st).files.getD k noFile).status
            = some ("failed")) ∧
        (((copy_out exec resolve setup files st).files.getD k noFile).status_code
            = some te.code)) := by
  constructor
  · intro exec resolve env_dq2 ada wkw setup files st e h
    simp only [copy_in] at h ⊢
    obtain ⟨pe, k, _, _, hk, _, hfk, hck, _, _, _, _, _⟩ :=
      copy_in_loop_failure_aux exec resolve ada wkw setup _ files env_dq2 _ e h
    exact ⟨k, hk, hfk, by rw [hck]; rfl⟩
  · intro exec resolve setup files st te h
    simp only [copy_out] at h ⊢
    exact copy_out_loop_failure_aux exec resolve setup _ files _ te h

/-- C6 counterexample: in stage-out, a zero-exit copy with empty output
(with a checksum flag resolved) raises the tuple-unpacking ValueError,
which copy_out's `except PilotException` clause does not catch: the
exception escapes the per-file step with the descriptor's status still
unset. -/
theorem copy_out_valueerror_skips_status :
    ((copy_out execCksumEmpty resolve0 none [fileX] {}).err
        = some (PyErr.valueError unpackErrMsg)) ∧
    (((copy_out execCksumEmpty resolve0 none [fileX] {}).files.getD 0 noFile).status
        = none) := by
  decide

/-- Witness for C6: both conjuncts applied at concrete failing runs. -/
theorem drivers_record_failure_before_raising_witness :
    (∃ k, k < filesBatch.length ∧
      (((copy_in execBatchIn resolve0 none false none none filesBatch {}).files.getD k
          noFile).status = some ("failed")) ∧
      (((copy_in execBatchIn resolve0 none false none none filesBatch {}).files.getD k
          noFile).status_code.isSome = true)) ∧
    (∃ k, k < [fileX].length ∧
      (((copy_out execAllFail resolve0 none [fileX] {}).files.getD k noFile).status
          = some ("failed")) ∧
      (((copy_out execAllFail resolve0 none [fileX] {}).files.getD k noFile).status_code
          = some (TypedError.mk "boom" 1234 "TRANSFER_ERROR").code)) :=
  ⟨drivers_record_failure_before_raising.1 execBatchIn resolve0 none false none none
      filesBatch {} (PyErr.pilot ⟨"boom", 1234, "STAGEIN_ATTEMPT_FAILED"⟩) (by decide),
   drivers_record_failure_before_raising.2 execAllFail resolve0 none [fileX] {}
      (TypedError.mk "boom" 1234 "TRANSFER_ERROR") (by decide)⟩

/-- C7: a stage-in file flagged direct-accessible, with direct access
enabled, is set to status `remote_io` with status code 0; exactly one
trace event is flushed for it, carrying clientState FOUND_ROOT, reason
direct_access and the file's turl; no copy command is executed for it (the
command log and the stage log are unchanged); and the loop continues with
the remaining files. -/
theorem copy_in_direct_access_shortcut
    (exec : Exec) (resolve : Resolver) (wkw setup : Option String) (coption : String)
    (f : FileSpec) (rest : List FileSpec) (loc : Option String) (st : DriverState)
    (hda : f.directaccess = true) :
    copy_in_loop exec resolve true wkw setup coption (f :: rest) loc st
      = { files := daFile f ::
            (copy_in_loop exec resolve true wkw setup coption rest (locUpd f loc)
              (daState f (preStateIn f (locUpd f loc) st))).files,
          st := (copy_in_loop exec resolve true wkw setup coption rest (locUpd f loc)
              (daState f (preStateIn f (locUpd f loc) st))).st,
          err := (copy_in_loop exec resolve true wkw setup coption rest (locUpd f loc)
              (daState f (preStateIn f (locUpd f loc) st))).err } ∧
    (daFile f).status = some ("remote_io") ∧
    (daFile f).status_code = some 0 ∧
    (daState f (preStateIn f (locUpd f loc) st)).cmds = st.cmds ∧
    (daState f (preStateIn f (locUpd f loc) st)).stageResults = st.stageResults ∧
    (daState f (preStateIn f (locUpd f loc) st)).events
      = st.events ++ [daTrace f (preStateIn f (locUpd f loc) st).trace] ∧
    (daTrace f (preStateIn f (locUpd f loc) st).trace).clientState = some ("FOUND_ROOT") ∧
    (daTrace f (preStateIn f (locUpd f loc) st).trace).stateReason = some ("direct_access") ∧
    (daTrace f (preStateIn f (locUpd f loc) st).trace).url = some f.turl := by
  refine ⟨?_, rfl, rfl, rfl, rfl, rfl, rfl, rfl, rfl⟩
  have hcond : (f.directaccess && true) = true := by rw [hda]; rfl
  simp only [copy_in_loop, hcond, if_true]

/-- Witness for C7: the shortcut applied to a concrete direct-access file
on an empty batch tail. -/
theorem copy_in_direct_access_shortcut_witness :
    (daFile fileDA).status = some ("remote_io") ∧
    (daState fileDA (preStateIn fileDA (locUpd fileDA none) ({} : DriverState))).cmds
      = DriverState.cmds {} :=
  ⟨(copy_in_direct_access_shortcut execEmptyOut resolve0 none none ("") fileDA [] none {}
      (by decide)).2.1,
   (copy_in_direct_access_shortcut execEmptyOut resolve0 none none ("") fileDA [] none {}
      (by decide)).2.2.2.1⟩

end Xrdcp
